import Mathlib

/-!
Verification of the CloudEvents HTTP decoder of functions-framework-cpp.

The decoder turns an inbound HTTP request into one or more CloudEvent
records, implementing the CloudEvents HTTP Protocol Binding's two
transport modes: binary (fields carried in headers) and structured
(fields carried in a JSON body, as a single object or a batch array).

The repository slice contains the unit tests
(google/cloud/functions/internal/parse_cloud_event_http_test.cc); the
decoder implementation itself is modelled from the specification, with
the tests constraining its observable behaviour.
-/

/-- Brace characters, used by the JSON scanner. -/
def lbraceChar : Char := Char.ofNat 123

/-- Closing brace character. -/
def rbraceChar : Char := Char.ofNat 125

/-- A CloudEvent value: the canonical event representation produced by the
decoder.  `time` is an absolute instant in Unix seconds.  Modelled from the
spec's data model (section 3): `id`, `source`, `type` required strings;
`spec_version` a string with a fixed default; the rest optional. -/
structure CloudEvent where
  id : String
  source : String
  type : String
  spec_version : String
  data_content_type : Option String
  data_schema : Option String
  subject : Option String
  time : Option Int
  data : Option String
deriving DecidableEq

/-- The framework's fixed default spec version constant
(`functions::CloudEvent::kDefaultSpecVersion`). -/
def kDefaultSpecVersion : String := "1.0"

/-- The decode-time error kinds of the spec's error handling design
(section 7). -/
inductive ParseError where
  | missingRequiredField (field : String)
  | mismatchedContentType
  | invalidTimestamp
  | invalidJson
  | malformedEvent
  | malformedBatch
  | unsupportedFormat
deriving DecidableEq

/-- Decidable equality for decoder results, so that concrete runs can be
checked by evaluation. -/
instance {ε α : Type} [DecidableEq ε] [DecidableEq α] : DecidableEq (Except ε α) := fun x y =>
  match x, y with
  | Except.ok a, Except.ok b =>
    if h : a = b then Decidable.isTrue (by rw [h])
    else Decidable.isFalse (fun hc => h (by injection hc))
  | Except.error a, Except.error b =>
    if h : a = b then Decidable.isTrue (by rw [h])
    else Decidable.isFalse (fun hc => h (by injection hc))
  | Except.ok _, Except.error _ => Decidable.isFalse (fun hc => Except.noConfusion hc)
  | Except.error _, Except.ok _ => Decidable.isFalse (fun hc => Except.noConfusion hc)

/-- The HTTP request abstraction (Boost.Beast request in the source): a
header list plus a body string. -/
structure BeastRequest where
  headers : List (String × String)
  body : String
deriving DecidableEq

/-- Lower-case a name character-wise, the normalization the spec's design
notes prescribe for header lookup. -/
def lowerName (s : String) : String := String.mk (s.data.map Char.toLower)

/-- Case-insensitive header lookup, as the HTTP layer provides
(spec section 6: case-insensitive header lookup by name). -/
def lookupHeader (hs : List (String × String)) (name : String) : Option String :=
  (hs.find? (fun p => lowerName p.1 == lowerName name)).map (fun p => p.2)

/-! ## RFC 3339 timestamp parsing (spec sections 3 and 4.2 step 3) -/

/-- Accumulate exactly `n` decimal digits into a number. -/
def takeDigitsAux : Nat → Nat → List Char → Option (Nat × List Char)
  | 0, acc, cs => some (acc, cs)
  | _ + 1, _, [] => none
  | n + 1, acc, c :: cs =>
    if c.isDigit then takeDigitsAux n (10 * acc + (c.toNat - 48)) cs else none

/-- Read exactly `n` decimal digits from the front of the character list. -/
def takeDigits (n : Nat) (cs : List Char) : Option (Nat × List Char) :=
  takeDigitsAux n 0 cs

/-- Require a specific character at the front. -/
def expectChar (c : Char) : List Char → Option (List Char)
  | [] => none
  | x :: xs => if x == c then some xs else none

/-- The RFC 3339 date/time separator: `T` or `t`. -/
def expectDateTimeSep : List Char → Option (List Char)
  | [] => none
  | x :: xs => if x == 'T' || x == 't' then some xs else none

/-- Skip an optional fractional-seconds part (sub-second precision may be
dropped, per the spec's data model). -/
def skipFrac : List Char → List Char
  | '.' :: c :: cs => if c.isDigit then (c :: cs).dropWhile (fun d => d.isDigit) else '.' :: c :: cs
  | cs => cs

/-- Parse the RFC 3339 offset suffix: `Z`/`z` or `±hh:mm`; returns the
offset in seconds. -/
def parseOffset : List Char → Option Int
  | ['Z'] => some 0
  | ['z'] => some 0
  | c :: rest =>
    if c == '+' || c == '-' then
      match takeDigits 2 rest with
      | some (h, ':' :: rest2) =>
        match takeDigits 2 rest2 with
        | some (m, []) =>
          if h ≤ 23 ∧ m ≤ 59 then
            some ((if c == '-' then (-1 : Int) else 1) * (3600 * h + 60 * m))
          else none
        | _ => none
      | _ => none
    else none
  | [] => none

/-- Days from 1970-01-01 to the civil date `y-mo-d` (proleptic Gregorian,
`y ≥ 1`); the standard days-from-civil computation. -/
def daysFromCivil (y mo d : Nat) : Int :=
  let yy := if mo ≤ 2 then y - 1 else y
  let era := yy / 400
  let yoe := yy % 400
  let mp := (mo + 9) % 12
  let doy := (153 * mp + 2) / 5 + (d - 1)
  let doe := yoe * 365 + yoe / 4 - yoe / 100 + doy
  ((era * 146097 + doe : Nat) : Int) - 719468

/-- Modelled from the spec: parse an RFC 3339 timestamp
(`YYYY-MM-DDThh:mm:ssZ` and offset variants) into an absolute UTC instant
in Unix seconds; `none` on malformed input.  The timestamp parser used by
the decoder is not part of the repository slice. -/
def parseRFC3339 (s : String) : Option Int := do
  let (y, cs) ← takeDigits 4 s.data
  let cs ← expectChar '-' cs
  let (mo, cs) ← takeDigits 2 cs
  let cs ← expectChar '-' cs
  let (d, cs) ← takeDigits 2 cs
  let cs ← expectDateTimeSep cs
  let (h, cs) ← takeDigits 2 cs
  let cs ← expectChar ':' cs
  let (mi, cs) ← takeDigits 2 cs
  let cs ← expectChar ':' cs
  let (sec, cs) ← takeDigits 2 cs
  let cs := skipFrac cs
  let off ← parseOffset cs
  if 1 ≤ y ∧ 1 ≤ mo ∧ mo ≤ 12 ∧ 1 ≤ d ∧ d ≤ 31 ∧ h ≤ 23 ∧ mi ≤ 59 ∧ sec ≤ 60 then
    some (86400 * daysFromCivil y mo d + 3600 * (h : Int) + 60 * (mi : Int) + (sec : Int) - off)
  else none

/-! ## Binary-mode decoder (spec section 4.2) -/

/-- Parse the optional `ce-time` header value (spec 4.2 step 3): absent is
fine; present but malformed is an InvalidTimestamp failure. -/
def parseTimeHeader : Option String → Except ParseError (Option Int)
  | none => Except.ok none
  | some s =>
    match parseRFC3339 s with
    | none => Except.error ParseError.invalidTimestamp
    | some t => Except.ok (some t)

/-- Determine `data_content_type` from the `ce-datacontenttype` header `a`
and the transport `content-type` header `b` (spec 4.2 step 4): both
present and different is a MismatchedContentType failure; otherwise use
whichever is present. -/
def reconcileContentType : Option String → Option String → Except ParseError (Option String)
  | some a, some b =>
    if a = b then Except.ok (some a) else Except.error ParseError.mismatchedContentType
  | some a, none => Except.ok (some a)
  | none, some b => Except.ok (some b)
  | none, none => Except.ok none

/-- Modelled from the spec: the binary-mode decoder
`ParseCloudEventHttpBinary` (spec section 4.2), whose implementation is
not part of the repository slice.  Reads the `ce-*` header family and the
body into one CloudEvent, or fails. -/
def ParseCloudEventHttpBinary (r : BeastRequest) : Except ParseError CloudEvent :=
  match lookupHeader r.headers "ce-id" with
  | none => Except.error (ParseError.missingRequiredField "ce-id")
  | some id =>
  match lookupHeader r.headers "ce-source" with
  | none => Except.error (ParseError.missingRequiredField "ce-source")
  | some source =>
  match lookupHeader r.headers "ce-type" with
  | none => Except.error (ParseError.missingRequiredField "ce-type")
  | some ty =>
  match parseTimeHeader (lookupHeader r.headers "ce-time") with
  | Except.error e => Except.error e
  | Except.ok time =>
  match reconcileContentType (lookupHeader r.headers "ce-datacontenttype")
      (lookupHeader r.headers "content-type") with
  | Except.error e => Except.error e
  | Except.ok dct =>
    Except.ok
      { id := id
        source := source
        type := ty
        spec_version := (lookupHeader r.headers "ce-specversion").getD kDefaultSpecVersion
        data_content_type := dct
        data_schema := lookupHeader r.headers "ce-dataschema"
        subject := lookupHeader r.headers "ce-subject"
        time := time
        data := if r.body = "" then none else some r.body }

/-! ## JSON values and parsing (external collaborator, modelled) -/

/-- JSON values, as the underlying JSON parser produces them.  Object
fields keep their textual order. -/
inductive Json where
  | null
  | bool (b : Bool)
  | num (n : Int)
  | str (s : String)
  | arr (elems : List Json)
  | obj (fields : List (String × Json))

/-- Whitespace as JSON defines it. -/
def jsonWs (c : Char) : Bool := [' ', '\t', '\n', '\r'].contains c

/-- Drop leading JSON whitespace. -/
def skipWs (cs : List Char) : List Char := cs.dropWhile jsonWs

/-- The JSON escape table: each escape letter with the character it
denotes. -/
def escTable : List (Char × Char) :=
  [('"', '"'), ('\\', '\\'), ('/', '/'), ('n', '\n'), ('t', '\t'), ('r', '\r'),
   ('b', Char.ofNat 8), ('f', Char.ofNat 12)]

/-- Translate a JSON string escape character via the table. -/
def escChar (c : Char) : Option Char :=
  (escTable.find? (fun p => p.1 == c)).map (fun p => p.2)

/-- Strip an expected literal from the front of the input, if present. -/
def stripLit (lit cs : List Char) : Option (List Char) :=
  if cs.take lit.length = lit then some (cs.drop lit.length) else none

/-- Scan a JSON string body (after the opening quote) into its value and
the remaining input. -/
def scanJsonString : List Char → List Char → Option (String × List Char)
  | _, [] => none
  | acc, c :: rest =>
    if c == '"' then some (String.mk acc.reverse, rest)
    else if c == '\\' then
      match rest with
      | [] => none
      | e :: rest2 =>
        match escChar e with
        | none => none
        | some ec => scanJsonString (ec :: acc) rest2
    else scanJsonString (c :: acc) rest

/-- Skip the fraction and exponent tail of a JSON number (the decoder only
needs integer-precision numbers, and no event attribute is numeric). -/
def skipNumTail (cs : List Char) : List Char :=
  let cs1 :=
    match cs with
    | c :: rest => if c == '.' then rest.dropWhile (fun d => d.isDigit) else cs
    | [] => cs
  match cs1 with
  | c :: rest =>
    if c == 'e' || c == 'E' then
      match rest with
      | s :: r2 =>
        if s == '+' || s == '-' then r2.dropWhile (fun d => d.isDigit)
        else rest.dropWhile (fun d => d.isDigit)
      | [] => rest
    else cs1
  | [] => cs1

/-- Scan a JSON number from the front of the input. -/
def scanJsonNumber (cs : List Char) : Option (Json × List Char) :=
  let (neg, cs1) :=
    match cs with
    | c :: rest => if c == '-' then (true, rest) else (false, cs)
    | [] => (false, cs)
  let digits := cs1.takeWhile (fun d => d.isDigit)
  let rest := cs1.dropWhile (fun d => d.isDigit)
  if digits.isEmpty then none
  else
    let n : Nat := digits.foldl (fun a c => 10 * a + (c.toNat - 48)) 0
    some (Json.num (if neg then -(n : Int) else (n : Int)), skipNumTail rest)

mutual

/-- Fuel-bounded recursive-descent JSON value parser. -/
def parseJsonValue : Nat → List Char → Option (Json × List Char)
  | 0, _ => none
  | fuel + 1, cs =>
    let ws := skipWs cs
    match stripLit "true".data ws with
    | some rest => some (Json.bool true, rest)
    | none =>
    match stripLit "false".data ws with
    | some rest => some (Json.bool false, rest)
    | none =>
    match stripLit "null".data ws with
    | some rest => some (Json.null, rest)
    | none =>
    match ws with
    | [] => none
    | c :: rest =>
      if c == '"' then
        (scanJsonString [] rest).map (fun p => (Json.str p.1, p.2))
      else if c == '[' then
        match skipWs rest with
        | ']' :: rest2 => some (Json.arr [], rest2)
        | _ => (parseJsonArrItems fuel rest).map (fun p => (Json.arr p.1, p.2))
      else if c == lbraceChar then
        match skipWs rest with
        | d :: rest2 =>
          if d == rbraceChar then some (Json.obj [], rest2)
          else (parseJsonObjItems fuel rest).map (fun p => (Json.obj p.1, p.2))
        | [] => none
      else scanJsonNumber (c :: rest)

/-- Parse the comma-separated items of a JSON array, up to and including
the closing bracket. -/
def parseJsonArrItems : Nat → List Char → Option (List Json × List Char)
  | 0, _ => none
  | fuel + 1, cs =>
    match parseJsonValue fuel cs with
    | none => none
    | some (v, cs1) =>
      match skipWs cs1 with
      | ',' :: rest =>
        match parseJsonArrItems fuel rest with
        | none => none
        | some (vs, cs2) => some (v :: vs, cs2)
      | ']' :: rest => some ([v], rest)
      | _ => none

/-- Parse the comma-separated fields of a JSON object, up to and including
the closing brace. -/
def parseJsonObjItems : Nat → List Char → Option (List (String × Json) × List Char)
  | 0, _ => none
  | fuel + 1, cs =>
    match skipWs cs with
    | c :: rest =>
      if c == '"' then
        match scanJsonString [] rest with
        | none => none
        | some (k, cs1) =>
          match skipWs cs1 with
          | ':' :: cs2 =>
            match parseJsonValue fuel cs2 with
            | none => none
            | some (v, cs3) =>
              match skipWs cs3 with
              | ',' :: cs4 =>
                match parseJsonObjItems fuel cs4 with
                | none => none
                | some (fs, cs5) => some ((k, v) :: fs, cs5)
              | c5 :: cs5 => if c5 == rbraceChar then some ([(k, v)], cs5) else none
              | [] => none
          | _ => none
      else none
    | [] => none

end

/-- Modelled from the spec: the underlying JSON parser (an external
collaborator of this core).  Parses a whole body as one JSON text;
`none` on a syntax error. -/
def parseJson (s : String) : Option Json :=
  match parseJsonValue (2 * s.length + 2) s.data with
  | some (j, rest) => if (skipWs rest).isEmpty then some j else none
  | none => none

/-! ## Structured-mode decoder (spec section 4.3) -/

/-- Look up an object field by exact key. -/
def jlookup (fs : List (String × Json)) (k : String) : Option Json :=
  (fs.find? (fun p => p.1 == k)).map (fun p => p.2)

/-- Look up an object field that must carry a string value. -/
def jStringField (fs : List (String × Json)) (k : String) : Option String :=
  match jlookup fs k with
  | some (Json.str s) => some s
  | _ => none

/-- Parse the optional `time` attribute of a structured-mode object
(identically to the `ce-time` header, spec 4.3 step 4). -/
def parseTimeField : Option Json → Except ParseError (Option Int)
  | none => Except.ok none
  | some (Json.str s) =>
    match parseRFC3339 s with
    | none => Except.error ParseError.invalidTimestamp
    | some t => Except.ok (some t)
  | some _ => Except.error ParseError.invalidTimestamp

mutual

/-- Serialize a JSON value back to text (used for non-string `data`
payloads), bounded by a fuel argument. -/
def renderJson : Nat → Json → String
  | _, Json.null => "null"
  | _, Json.bool b => if b then "true" else "false"
  | _, Json.num n => toString n
  | _, Json.str s => "\"" ++ s ++ "\""
  | 0, Json.arr _ => ""
  | 0, Json.obj _ => ""
  | fuel + 1, Json.arr es => "[" ++ renderJsonList fuel es ++ "]"
  | fuel + 1, Json.obj fs => "\x7b" ++ renderJsonFields fuel fs ++ "\x7d"

/-- Serialize array elements, comma separated. -/
def renderJsonList : Nat → List Json → String
  | _, [] => ""
  | 0, _ :: _ => ""
  | fuel + 1, [v] => renderJson fuel v
  | fuel + 1, v :: rest => renderJson fuel v ++ "," ++ renderJsonList fuel rest

/-- Serialize object fields, comma separated. -/
def renderJsonFields : Nat → List (String × Json) → String
  | _, [] => ""
  | 0, _ :: _ => ""
  | fuel + 1, [(k, v)] => "\"" ++ k ++ "\":" ++ renderJson fuel v
  | fuel + 1, (k, v) :: rest =>
    "\"" ++ k ++ "\":" ++ renderJson fuel v ++ "," ++ renderJsonFields fuel rest

end

mutual

/-- Node count of a JSON value, used to bound the serializer's fuel. -/
def jsize : Json → Nat
  | Json.null => 1
  | Json.bool _ => 1
  | Json.num _ => 1
  | Json.str _ => 1
  | Json.arr es => 1 + jsizeList es
  | Json.obj fs => 1 + jsizeFields fs

/-- Node count of a list of JSON values. -/
def jsizeList : List Json → Nat
  | [] => 0
  | j :: rest => 1 + jsize j + jsizeList rest

/-- Node count of a list of JSON object fields. -/
def jsizeFields : List (String × Json) → Nat
  | [] => 0
  | (_, j) :: rest => 1 + jsize j + jsizeFields rest

end

/-- The `data` attribute of a structured-mode object becomes the event's
payload verbatim: a JSON string directly, any other JSON value via its
serialization. -/
def jsonDataField : Option Json → Option String
  | none => none
  | some (Json.str s) => some s
  | some v => some (renderJson (jsize v) v)

/-- Modelled from the spec: map one structured-mode JSON object to a
CloudEvent (spec 4.3 step 4): `id`, `source`, `type` required strings
(missing or non-string fails with MissingRequiredField); `specversion`
defaults; `time` parsed as RFC 3339; `data` taken verbatim. -/
def ParseCloudEventJsonObject (fs : List (String × Json)) : Except ParseError CloudEvent :=
  match jStringField fs "id" with
  | none => Except.error (ParseError.missingRequiredField "id")
  | some id =>
  match jStringField fs "source" with
  | none => Except.error (ParseError.missingRequiredField "source")
  | some source =>
  match jStringField fs "type" with
  | none => Except.error (ParseError.missingRequiredField "type")
  | some ty =>
  match parseTimeField (jlookup fs "time") with
  | Except.error e => Except.error e
  | Except.ok time =>
    Except.ok
      { id := id
        source := source
        type := ty
        spec_version := (jStringField fs "specversion").getD kDefaultSpecVersion
        data_content_type := jStringField fs "datacontenttype"
        data_schema := jStringField fs "dataschema"
        subject := jStringField fs "subject"
        time := time
        data := jsonDataField (jlookup fs "data") }

/-- A structured-batch array element must be a JSON object
(spec 4.3 step 2); a non-object element fails with MalformedBatch. -/
def decodeBatchElement : Json → Except ParseError CloudEvent
  | Json.obj fs => ParseCloudEventJsonObject fs
  | _ => Except.error ParseError.malformedBatch

/-- Decode the elements of a structured-batch array in order, failing
atomically on the first bad element. -/
def ParseCloudEventJsonBatchList : List Json → Except ParseError (List CloudEvent)
  | [] => Except.ok []
  | j :: rest =>
    match decodeBatchElement j with
    | Except.error e => Except.error e
    | Except.ok ce =>
      match ParseCloudEventJsonBatchList rest with
      | Except.error e => Except.error e
      | Except.ok ces => Except.ok (ce :: ces)

/-! ## Mode selection and dispatcher (spec sections 4.1 and 4.4) -/

/-- The content type of a single structured-mode CloudEvent. -/
def kContentTypeCloudEvent : String := "application/cloudevents+json"

/-- The content type of a structured-mode CloudEvent batch. -/
def kContentTypeCloudEventBatch : String := "application/cloudevents-batch+json"

/-- The base media type of a content-type value: everything before the
first `;` (parameter suffixes such as charset are ignored for
classification, spec 4.1). -/
def mediaType (ct : String) : String :=
  String.mk (ct.data.takeWhile (fun c => c != ';'))

/-- The three parsing modes of the Mode Selector. -/
inductive ParseMode where
  | binary
  | structuredSingle
  | structuredBatch
deriving DecidableEq

/-- Modelled from the spec: the Mode Selector (spec 4.1), whose
implementation is not part of the repository slice.  Classifies by the
base media type of the content-type header; any other content type,
including an absent one, is binary.  The test
`ParseCloudEventHttp.BinaryWithUnknownContentType` pins non-JSON
`application/cloudevents+<format>` values to the binary branch. -/
def SelectParseMode (r : BeastRequest) : ParseMode :=
  match lookupHeader r.headers "content-type" with
  | none => ParseMode.binary
  | some ct =>
    if mediaType ct == kContentTypeCloudEventBatch then ParseMode.structuredBatch
    else if mediaType ct == kContentTypeCloudEvent then ParseMode.structuredSingle
    else ParseMode.binary

/-- Modelled from the spec: the Dispatcher entry point
`ParseCloudEventHttp` (spec 4.4 DecodeMany), whose implementation is not
part of the repository slice.  Routes via the Mode Selector and returns
the resulting list of CloudEvents. -/
def ParseCloudEventHttp (r : BeastRequest) : Except ParseError (List CloudEvent) :=
  match SelectParseMode r with
  | ParseMode.binary => (ParseCloudEventHttpBinary r).map (fun ce => [ce])
  | ParseMode.structuredSingle =>
    match parseJson r.body with
    | none => Except.error ParseError.invalidJson
    | some (Json.obj fs) => (ParseCloudEventJsonObject fs).map (fun ce => [ce])
    | some _ => Except.error ParseError.malformedEvent
  | ParseMode.structuredBatch =>
    match parseJson r.body with
    | none => Except.error ParseError.invalidJson
    | some (Json.arr es) => ParseCloudEventJsonBatchList es
    | some _ => Except.error ParseError.malformedBatch

/-! ## Concrete fixtures from the unit tests -/

/-- The request built by `TestBeastRequest()` in the unit tests. -/
def testReq : BeastRequest :=
  { headers := [("ce-type", "com.example.someevent"), ("ce-source", "/mycontext"),
      ("ce-id", "A234-1234-1234")]
    body := "" }

/-- `TestBeastRequest()` with `ce-id` erased. -/
def reqNoId : BeastRequest :=
  { headers := [("ce-type", "com.example.someevent"), ("ce-source", "/mycontext")]
    body := "" }

/-- `TestBeastRequest()` with `ce-source` erased. -/
def reqNoSource : BeastRequest :=
  { headers := [("ce-type", "com.example.someevent"), ("ce-id", "A234-1234-1234")]
    body := "" }

/-- `TestBeastRequest()` with `ce-type` erased. -/
def reqNoType : BeastRequest :=
  { headers := [("ce-source", "/mycontext"), ("ce-id", "A234-1234-1234")]
    body := "" }

/-- The structured-single JSON body of test `ParseCloudEventHttp.Json`. -/
def jsonBody : String :=
  "\x7b\n    \"type\" : \"com.example.someevent\",\n    \"source\" : \"/mycontext\",\n    \"id\" : \"A234-1234-1234\"\x7d"

/-- The structured-single request of test `ParseCloudEventHttp.Json`. -/
def jsonReq : BeastRequest :=
  { headers := [("content-type", "application/cloudevents+json; charset=utf-8")]
    body := jsonBody }

/-- The CloudEvent that `ParseCloudEventHttp.Json` expects. -/
def jsonEvent : CloudEvent :=
  { id := "A234-1234-1234", source := "/mycontext", type := "com.example.someevent"
    spec_version := kDefaultSpecVersion, data_content_type := none, data_schema := none
    subject := none, time := none, data := none }

/-- The structured-batch JSON body of test `ParseCloudEventHttp.JsonBatch`. -/
def batchBody : String :=
  "[\n  \x7b\n    \"type\" : \"com.example.someevent\",\n    \"source\" : \"/mycontext\",\n    \"id\" : \"A234-1234-1234-0\"\n  \x7d,\n  \x7b\n    \"type\" : \"com.example.someevent\",\n    \"source\" : \"/mycontext\",\n    \"id\" : \"A234-1234-1234-1\"\n  \x7d,\n  \x7b\n    \"type\" : \"com.example.someevent\",\n    \"source\" : \"/mycontext\",\n    \"id\" : \"A234-1234-1234-2\"\n  \x7d\n  ]"

/-- The structured-batch request of test `ParseCloudEventHttp.JsonBatch`. -/
def batchReq : BeastRequest :=
  { headers := [("content-type", "application/cloudevents-batch+json; charset=utf-8")]
    body := batchBody }

/-- One JSON element of the batch body, as parsed. -/
def batchElem (suffix : String) : Json :=
  Json.obj [("type", Json.str "com.example.someevent"), ("source", Json.str "/mycontext"),
    ("id", Json.str ("A234-1234-1234-" ++ suffix))]

/-- The parsed elements of the batch body. -/
def batchEs : List Json := [batchElem "0", batchElem "1", batchElem "2"]

/-- One CloudEvent of the batch, as decoded. -/
def batchEvent (suffix : String) : CloudEvent :=
  { id := "A234-1234-1234-" ++ suffix, source := "/mycontext"
    type := "com.example.someevent", spec_version := kDefaultSpecVersion
    data_content_type := none, data_schema := none, subject := none, time := none, data := none }

/-- The CloudEvents that `ParseCloudEventHttp.JsonBatch` expects, in order. -/
def batchEvs : List CloudEvent := [batchEvent "0", batchEvent "1", batchEvent "2"]

/-- The request of test `ParseCloudEventHttp.BinaryWithUnknownContentType`:
the binary headers plus `content-type: application/cloudevents+avro`. -/
def avroReq : BeastRequest :=
  { headers := [("ce-type", "com.example.someevent"), ("ce-source", "/mycontext"),
      ("ce-id", "A234-1234-1234"), ("content-type", "application/cloudevents+avro")]
    body := "" }

/-- The CloudEvent the binary decoder produces for `avroReq`. -/
def avroEvent : CloudEvent :=
  { id := "A234-1234-1234", source := "/mycontext", type := "com.example.someevent"
    spec_version := kDefaultSpecVersion
    data_content_type := some "application/cloudevents+avro"
    data_schema := none, subject := none, time := none, data := none }

/-- The request of test `ParseCloudEventHttp.WithTime`. -/
def timeReq : BeastRequest :=
  { headers := testReq.headers ++ [("ce-time", "2018-04-05T17:31:05Z")], body := "" }

/-- The request of test `ParseCloudEventHttp.WithData`. -/
def dataReq : BeastRequest := { headers := testReq.headers, body := "Hello World\n" }

/-- The request of test `ParseCloudEventHttp.WithSpecVersion`. -/
def svReq : BeastRequest :=
  { headers := testReq.headers ++ [("ce-specversion", "1.1")], body := "" }

/-! ## Helper lemmas -/

/-- Reduction of the binary decoder when every stage succeeds. -/
theorem binary_ok_shape (r : BeastRequest) (i s t : String) (ot : Option Int)
    (od : Option String)
    (hid : lookupHeader r.headers "ce-id" = some i)
    (hsrc : lookupHeader r.headers "ce-source" = some s)
    (htyp : lookupHeader r.headers "ce-type" = some t)
    (htime : parseTimeHeader (lookupHeader r.headers "ce-time") = Except.ok ot)
    (hrec : reconcileContentType (lookupHeader r.headers "ce-datacontenttype")
        (lookupHeader r.headers "content-type") = Except.ok od) :
    ParseCloudEventHttpBinary r = Except.ok
      { id := i
        source := s
        type := t
        spec_version := (lookupHeader r.headers "ce-specversion").getD kDefaultSpecVersion
        data_content_type := od
        data_schema := lookupHeader r.headers "ce-dataschema"
        subject := lookupHeader r.headers "ce-subject"
        time := ot
        data := if r.body = "" then none else some r.body } := by
  simp only [ParseCloudEventHttpBinary, hid, hsrc, htyp, htime, hrec]

/-- The batch-list decoder succeeds exactly elementwise, preserving length
and order. -/
theorem batch_list_spec (es : List Json) (evs : List CloudEvent)
    (h : ParseCloudEventJsonBatchList es = Except.ok evs) :
    evs.length = es.length ∧
      ∀ (i : Nat) (h1 : i < es.length) (h2 : i < evs.length),
        decodeBatchElement (es.get ⟨i, h1⟩) = Except.ok (evs.get ⟨i, h2⟩) := by
  induction es generalizing evs with
  | nil =>
    simp only [ParseCloudEventJsonBatchList] at h
    injection h with h
    subst h
    exact ⟨rfl, fun i h1 _ => absurd h1 (by simp)⟩
  | cons j rest ih =>
    unfold ParseCloudEventJsonBatchList at h
    cases hd : decodeBatchElement j with
    | error e => rw [hd] at h; cases h
    | ok ce =>
      rw [hd] at h
      cases ht : ParseCloudEventJsonBatchList rest with
      | error e => rw [ht] at h; cases h
      | ok ces =>
        rw [ht] at h
        injection h with h
        subst h
        obtain ⟨hlen, hel⟩ := ih ces ht
        refine ⟨by simp [hlen], ?_⟩
        intro i h1 h2
        cases i with
        | zero => simpa using hd
        | succ n =>
          have hn1 : n < rest.length := by simpa using h1
          have hn2 : n < ces.length := by simpa using h2
          simpa using hel n hn1 hn2

/-- `takeWhile` of not-semicolon stops exactly at the first semicolon. -/
theorem takeWhile_stops_at_semicolon (pre post : List Char)
    (h : ∀ c ∈ pre, (c != ';') = true) :
    (pre ++ ';' :: post).takeWhile (fun c => c != ';') = pre := by
  induction pre with
  | nil => simp [List.takeWhile_cons]
  | cons c cs ih =>
    have hc : (c != ';') = true := h c (by simp)
    have hcs : ∀ d ∈ cs, (d != ';') = true := fun d hd => h d (by simp [hd])
    simp [List.takeWhile_cons, hc, ih hcs]

/-- The base media type of `base ++ ";" ++ params` is `base`, when `base`
itself has no semicolon. -/
theorem mediaType_ignores_params (base ps : String)
    (h : ∀ c ∈ base.data, (c != ';') = true) :
    mediaType (base ++ ";" ++ ps) = base := by
  unfold mediaType
  have hd : (base ++ ";" ++ ps).data = base.data ++ ';' :: ps.data := by
    rw [String.data_append, String.data_append]
    have hsemi : (";" : String).data = [';'] := rfl
    rw [hsemi, List.append_assoc, List.singleton_append]
  rw [hd, takeWhile_stops_at_semicolon base.data ps.data h]

/-! ## Claims -/

/-- Claim C1: for every well-formed binary-mode request whose headers
contain `ce-id`, `ce-source` and `ce-type` (and whose optional stages
succeed: the `ce-time` header parses and the content types reconcile),
`ParseCloudEventHttpBinary` succeeds and returns a CloudEvent whose `id`,
`source` and `type` equal those three header values exactly,
byte-for-byte. -/
theorem parse_binary_id_source_type (r : BeastRequest) (i s t : String)
    (hid : lookupHeader r.headers "ce-id" = some i)
    (hsrc : lookupHeader r.headers "ce-source" = some s)
    (htyp : lookupHeader r.headers "ce-type" = some t)
    (htime : ∃ ot, parseTimeHeader (lookupHeader r.headers "ce-time") = Except.ok ot)
    (hct : ∃ od, reconcileContentType (lookupHeader r.headers "ce-datacontenttype")
        (lookupHeader r.headers "content-type") = Except.ok od) :
    ∃ ce, ParseCloudEventHttpBinary r = Except.ok ce ∧
      ce.id = i ∧ ce.source = s ∧ ce.type = t := by
  obtain ⟨ot, htime⟩ := htime
  obtain ⟨od, hct⟩ := hct
  exact ⟨_, binary_ok_shape r i s t ot od hid hsrc htyp htime hct, rfl, rfl, rfl⟩

/-- Witness for C1: the `TestBeastRequest()` fixture of test
`ParseCloudEventHttp.Basic`. -/
theorem parse_binary_id_source_type_witness :
    ∃ ce, ParseCloudEventHttpBinary testReq = Except.ok ce ∧
      ce.id = "A234-1234-1234" ∧ ce.source = "/mycontext" ∧
      ce.type = "com.example.someevent" :=
  parse_binary_id_source_type testReq "A234-1234-1234" "/mycontext" "com.example.someevent"
    (by decide) (by decide) (by decide) ⟨none, by decide⟩ ⟨none, by decide⟩

/-- Claim C2: for every binary-mode request and for each field among
`ce-id`, `ce-source` and `ce-type` independently: if that header is
absent from an otherwise-valid request (the other two present), the
decoder fails with a MissingRequiredField error naming that field, and
returns no CloudEvent. -/
theorem parse_binary_missing_required_field :
    (∀ r : BeastRequest, lookupHeader r.headers "ce-id" = none →
        ParseCloudEventHttpBinary r =
          Except.error (ParseError.missingRequiredField "ce-id")) ∧
    (∀ (r : BeastRequest) (i : String), lookupHeader r.headers "ce-id" = some i →
        lookupHeader r.headers "ce-source" = none →
        ParseCloudEventHttpBinary r =
          Except.error (ParseError.missingRequiredField "ce-source")) ∧
    (∀ (r : BeastRequest) (i s : String), lookupHeader r.headers "ce-id" = some i →
        lookupHeader r.headers "ce-source" = some s →
        lookupHeader r.headers "ce-type" = none →
        ParseCloudEventHttpBinary r =
          Except.error (ParseError.missingRequiredField "ce-type")) := by
  refine ⟨fun r h => ?_, fun r i hi h => ?_, fun r i s hi hs h => ?_⟩
  · simp only [ParseCloudEventHttpBinary, h]
  · simp only [ParseCloudEventHttpBinary, hi, h]
  · simp only [ParseCloudEventHttpBinary, hi, hs, h]

/-- Witness for C2: the three erased-header requests of test
`ParseCloudEventHttp.MissingRequiredFields`. -/
theorem parse_binary_missing_required_field_witness :
    ParseCloudEventHttpBinary reqNoId =
        Except.error (ParseError.missingRequiredField "ce-id") ∧
    ParseCloudEventHttpBinary reqNoSource =
        Except.error (ParseError.missingRequiredField "ce-source") ∧
    ParseCloudEventHttpBinary reqNoType =
        Except.error (ParseError.missingRequiredField "ce-type") :=
  ⟨parse_binary_missing_required_field.1 reqNoId (by decide),
   parse_binary_missing_required_field.2.1 reqNoSource "A234-1234-1234" (by decide) (by decide),
   parse_binary_missing_required_field.2.2 reqNoType "A234-1234-1234" "/mycontext"
     (by decide) (by decide) (by decide)⟩

/-- Claim C4: in binary mode (on a request whose required fields are
present and whose `ce-time` stage succeeds), the decoder fails with
MismatchedContentType exactly when both the `ce-datacontenttype` header
and the transport `content-type` header are present with unequal values;
when only one of the two is present, decoding succeeds and
`data_content_type` equals that one value; when neither is present,
`data_content_type` is unset. -/
theorem binary_data_content_type_reconciliation (r : BeastRequest) (i s t : String)
    (hid : lookupHeader r.headers "ce-id" = some i)
    (hsrc : lookupHeader r.headers "ce-source" = some s)
    (htyp : lookupHeader r.headers "ce-type" = some t)
    (htime : ∃ ot, parseTimeHeader (lookupHeader r.headers "ce-time") = Except.ok ot) :
    (ParseCloudEventHttpBinary r = Except.error ParseError.mismatchedContentType ↔
       ∃ a b, lookupHeader r.headers "ce-datacontenttype" = some a ∧
         lookupHeader r.headers "content-type" = some b ∧ a ≠ b) ∧
    (∀ a, lookupHeader r.headers "ce-datacontenttype" = some a →
       lookupHeader r.headers "content-type" = none →
       ∃ ce, ParseCloudEventHttpBinary r = Except.ok ce ∧
         ce.data_content_type = some a) ∧
    (∀ b, lookupHeader r.headers "ce-datacontenttype" = none →
       lookupHeader r.headers "content-type" = some b →
       ∃ ce, ParseCloudEventHttpBinary r = Except.ok ce ∧
         ce.data_content_type = some b) ∧
    (lookupHeader r.headers "ce-datacontenttype" = none →
       lookupHeader r.headers "content-type" = none →
       ∃ ce, ParseCloudEventHttpBinary r = Except.ok ce ∧
         ce.data_content_type = none) := by
  obtain ⟨ot, htime⟩ := htime
  refine ⟨?_, fun a ha hb => ?_, fun b ha hb => ?_, fun ha hb => ?_⟩
  · constructor
    · intro herr
      cases ha : lookupHeader r.headers "ce-datacontenttype" with
      | none =>
        cases hb : lookupHeader r.headers "content-type" with
        | none =>
          rw [binary_ok_shape r i s t ot none hid hsrc htyp htime
            (by rw [ha, hb]; rfl)] at herr
          cases herr
        | some b =>
          rw [binary_ok_shape r i s t ot (some b) hid hsrc htyp htime
            (by rw [ha, hb]; rfl)] at herr
          cases herr
      | some a =>
        cases hb : lookupHeader r.headers "content-type" with
        | none =>
          rw [binary_ok_shape r i s t ot (some a) hid hsrc htyp htime
            (by rw [ha, hb]; rfl)] at herr
          cases herr
        | some b =>
          by_cases hab : a = b
          · rw [binary_ok_shape r i s t ot (some a) hid hsrc htyp htime
              (by rw [ha, hb]; simp [reconcileContentType, hab])] at herr
            cases herr
          · exact ⟨a, b, rfl, rfl, hab⟩
    · rintro ⟨a, b, ha, hb, hab⟩
      simp only [ParseCloudEventHttpBinary, hid, hsrc, htyp, htime, ha, hb,
        reconcileContentType, if_neg hab]
  · exact ⟨_, binary_ok_shape r i s t ot (some a) hid hsrc htyp htime
      (by rw [ha, hb]; rfl), rfl⟩
  · exact ⟨_, binary_ok_shape r i s t ot (some b) hid hsrc htyp htime
      (by rw [ha, hb]; rfl), rfl⟩
  · exact ⟨_, binary_ok_shape r i s t ot none hid hsrc htyp htime
      (by rw [ha, hb]; rfl), rfl⟩

/-- Witness for C4: the request of test
`ParseCloudEventHttp.MismatchedContentTypes`, with `ce-datacontenttype:
text/plain` and `content-type: application/json`. -/
theorem binary_data_content_type_reconciliation_witness :
    ParseCloudEventHttpBinary
        { headers := testReq.headers ++
            [("ce-datacontenttype", "text/plain"), ("content-type", "application/json")]
          body := "" } =
      Except.error ParseError.mismatchedContentType :=
  (binary_data_content_type_reconciliation
      { headers := testReq.headers ++
          [("ce-datacontenttype", "text/plain"), ("content-type", "application/json")]
        body := "" }
      "A234-1234-1234" "/mycontext" "com.example.someevent"
      (by decide) (by decide) (by decide) ⟨none, by decide⟩).1.2
    ⟨"text/plain", "application/json", by decide, by decide, by decide⟩

set_option maxRecDepth 8192 in
/-- Counterexample to claim C3: the request of test
`ParseCloudEventHttp.BinaryWithUnknownContentType`, whose content-type
media type is `application/cloudevents+avro` (a non-JSON structured
format), does not fail with UnsupportedFormat: `ParseCloudEventHttp`
succeeds and produces a CloudEvent, parsed in binary mode from the
`ce-*` headers. -/
theorem avro_request_decodes_binary_counterexample :
    ParseCloudEventHttp avroReq = Except.ok [avroEvent] := by decide

/-- Claim C3 (amended): a request whose content-type media type is not one
of the two JSON structured types (for example
`application/cloudevents+avro`) is classified binary, and
`ParseCloudEventHttp` returns the binary-mode decode of the request
rather than failing with an UnsupportedFormat error. -/
theorem nonjson_structured_content_type_binary (r : BeastRequest) (ct : String)
    (hct : lookupHeader r.headers "content-type" = some ct)
    (h1 : mediaType ct ≠ kContentTypeCloudEventBatch)
    (h2 : mediaType ct ≠ kContentTypeCloudEvent) :
    ParseCloudEventHttp r = (ParseCloudEventHttpBinary r).map (fun ce => [ce]) := by
  have hb1 : (mediaType ct == kContentTypeCloudEventBatch) = false := by
    rw [beq_eq_false_iff_ne]
    exact h1
  have hb2 : (mediaType ct == kContentTypeCloudEvent) = false := by
    rw [beq_eq_false_iff_ne]
    exact h2
  simp only [ParseCloudEventHttp, SelectParseMode, hct, hb1, hb2, Bool.false_eq_true,
    if_false]

/-- Witness for the amended C3, at the
`ParseCloudEventHttp.BinaryWithUnknownContentType` request. -/
theorem nonjson_structured_content_type_binary_witness :
    ParseCloudEventHttp avroReq = (ParseCloudEventHttpBinary avroReq).map (fun ce => [ce]) :=
  nonjson_structured_content_type_binary avroReq "application/cloudevents+avro"
    (by decide) (by decide) (by decide)

/-- Claim C5: for every structured-batch request whose body is a JSON
array of N event objects (each decoding successfully),
`ParseCloudEventHttp` produces exactly N CloudEvents, one per array
element, in the same order as the input array. -/
theorem json_batch_order_and_length (r : BeastRequest) (es : List Json)
    (evs : List CloudEvent)
    (hmode : SelectParseMode r = ParseMode.structuredBatch)
    (hparse : parseJson r.body = some (Json.arr es))
    (hdec : ParseCloudEventJsonBatchList es = Except.ok evs) :
    ParseCloudEventHttp r = Except.ok evs ∧ evs.length = es.length ∧
      ∀ (i : Nat) (h1 : i < es.length) (h2 : i < evs.length),
        decodeBatchElement (es.get ⟨i, h1⟩) = Except.ok (evs.get ⟨i, h2⟩) := by
  obtain ⟨hlen, hel⟩ := batch_list_spec es evs hdec
  refine ⟨?_, hlen, hel⟩
  simp only [ParseCloudEventHttp, hmode, hparse]
  exact hdec

set_option maxRecDepth 8192 in
/-- Witness for C5: the three-element batch of test
`ParseCloudEventHttp.JsonBatch` decodes to its three CloudEvents in
order. -/
theorem json_batch_order_and_length_witness :
    ParseCloudEventHttp batchReq = Except.ok batchEvs :=
  (json_batch_order_and_length batchReq batchEs batchEvs (by decide) (by rfl)
    (by decide)).1

set_option maxRecDepth 8192 in
/-- Claim C6: mode classification matches on the base media type only,
ignoring content-type parameters: a content-type
`application/cloudevents+json;<params>` is classified structured-single
(and the test `ParseCloudEventHttp.Json` request, whose content type
carries `; charset=utf-8`, decodes to exactly one CloudEvent from the
JSON body, with the default spec version);
`application/cloudevents-batch+json;<params>` is classified
structured-batch. -/
theorem mode_classification_ignores_parameters :
    (∀ (r : BeastRequest) (ps : String),
        lookupHeader r.headers "content-type" = some (kContentTypeCloudEvent ++ ";" ++ ps) →
        SelectParseMode r = ParseMode.structuredSingle) ∧
    (∀ (r : BeastRequest) (ps : String),
        lookupHeader r.headers "content-type" =
            some (kContentTypeCloudEventBatch ++ ";" ++ ps) →
        SelectParseMode r = ParseMode.structuredBatch) ∧
    ParseCloudEventHttp jsonReq = Except.ok [jsonEvent] ∧
    SelectParseMode batchReq = ParseMode.structuredBatch := by
  refine ⟨?_, ?_, by decide, by decide⟩
  · intro r ps h
    have hm : mediaType (kContentTypeCloudEvent ++ ";" ++ ps) = kContentTypeCloudEvent :=
      mediaType_ignores_params _ ps (by decide)
    simp only [SelectParseMode, h, hm]
    decide
  · intro r ps h
    have hm : mediaType (kContentTypeCloudEventBatch ++ ";" ++ ps) =
        kContentTypeCloudEventBatch :=
      mediaType_ignores_params _ ps (by decide)
    simp only [SelectParseMode, h, hm]
    decide

/-- Witness for C6: the charset-carrying content types of tests
`ParseCloudEventHttp.Json` and `ParseCloudEventHttp.JsonBatch`. -/
theorem mode_classification_ignores_parameters_witness :
    SelectParseMode jsonReq = ParseMode.structuredSingle ∧
    SelectParseMode batchReq = ParseMode.structuredBatch :=
  ⟨mode_classification_ignores_parameters.1 jsonReq " charset=utf-8" (by decide),
   mode_classification_ignores_parameters.2.1 batchReq " charset=utf-8" (by decide)⟩

/-- Claim C7: a binary-mode request (otherwise valid) with header
`ce-time: 2018-04-05T17:31:05Z` decodes to a CloudEvent whose time equals
the absolute instant Unix time 1522949465; more generally, a present
`ce-time` that parses as RFC 3339 yields that absolute UTC instant as the
event's time. -/
theorem binary_time_rfc3339 (r : BeastRequest) (i s t : String)
    (hid : lookupHeader r.headers "ce-id" = some i)
    (hsrc : lookupHeader r.headers "ce-source" = some s)
    (htyp : lookupHeader r.headers "ce-type" = some t)
    (hct : ∃ od, reconcileContentType (lookupHeader r.headers "ce-datacontenttype")
        (lookupHeader r.headers "content-type") = Except.ok od) :
    (∀ (ts : String) (tv : Int), lookupHeader r.headers "ce-time" = some ts →
        parseRFC3339 ts = some tv →
        ∃ ce, ParseCloudEventHttpBinary r = Except.ok ce ∧ ce.time = some tv) ∧
    (lookupHeader r.headers "ce-time" = some "2018-04-05T17:31:05Z" →
        ∃ ce, ParseCloudEventHttpBinary r = Except.ok ce ∧
          ce.time = some 1522949465) := by
  obtain ⟨od, hct⟩ := hct
  have h1 : ∀ (ts : String) (tv : Int), lookupHeader r.headers "ce-time" = some ts →
      parseRFC3339 ts = some tv →
      ∃ ce, ParseCloudEventHttpBinary r = Except.ok ce ∧ ce.time = some tv := by
    intro ts tv hts htv
    have htime : parseTimeHeader (lookupHeader r.headers "ce-time") =
        Except.ok (some tv) := by
      rw [hts]
      simp only [parseTimeHeader, htv]
    exact ⟨_, binary_ok_shape r i s t (some tv) od hid hsrc htyp htime hct, rfl⟩
  exact ⟨h1, fun hts => h1 "2018-04-05T17:31:05Z" 1522949465 hts (by decide)⟩

/-- Witness for C7: the request of test `ParseCloudEventHttp.WithTime`. -/
theorem binary_time_rfc3339_witness :
    ∃ ce, ParseCloudEventHttpBinary timeReq = Except.ok ce ∧
      ce.time = some 1522949465 :=
  (binary_time_rfc3339 timeReq "A234-1234-1234" "/mycontext" "com.example.someevent"
    (by decide) (by decide) (by decide) ⟨none, by decide⟩).2 (by decide)

/-- Claim C8: in both binary and structured modes, when the spec-version
attribute (`ce-specversion` header, or the `specversion` JSON key) is
absent, the decoded CloudEvent's `spec_version` equals the framework's
fixed default spec-version constant. -/
theorem default_spec_version_when_absent :
    (∀ (r : BeastRequest) (i s t : String),
        lookupHeader r.headers "ce-id" = some i →
        lookupHeader r.headers "ce-source" = some s →
        lookupHeader r.headers "ce-type" = some t →
        (∃ ot, parseTimeHeader (lookupHeader r.headers "ce-time") = Except.ok ot) →
        (∃ od, reconcileContentType (lookupHeader r.headers "ce-datacontenttype")
            (lookupHeader r.headers "content-type") = Except.ok od) →
        lookupHeader r.headers "ce-specversion" = none →
        ∃ ce, ParseCloudEventHttpBinary r = Except.ok ce ∧
          ce.spec_version = kDefaultSpecVersion) ∧
    (∀ (fs : List (String × Json)) (ce : CloudEvent),
        jlookup fs "specversion" = none →
        ParseCloudEventJsonObject fs = Except.ok ce →
        ce.spec_version = kDefaultSpecVersion) := by
  constructor
  · intro r i s t hid hsrc htyp htime hct hsv
    obtain ⟨ot, htime⟩ := htime
    obtain ⟨od, hct⟩ := hct
    refine ⟨_, binary_ok_shape r i s t ot od hid hsrc htyp htime hct, ?_⟩
    simp [hsv]
  · intro fs ce hsv hok
    have hsv' : jStringField fs "specversion" = none := by
      unfold jStringField
      rw [hsv]
    unfold ParseCloudEventJsonObject at hok
    cases h1 : jStringField fs "id" with
    | none => rw [h1] at hok; cases hok
    | some i =>
      rw [h1] at hok
      cases h2 : jStringField fs "source" with
      | none => rw [h2] at hok; cases hok
      | some s =>
        rw [h2] at hok
        cases h3 : jStringField fs "type" with
        | none => rw [h3] at hok; cases hok
        | some t =>
          rw [h3] at hok
          cases h4 : parseTimeField (jlookup fs "time") with
          | error e => rw [h4] at hok; cases hok
          | ok ot =>
            rw [h4] at hok
            injection hok with hok
            subst hok
            simp [hsv']

/-- Witness for C8: the `TestBeastRequest()` fixture, which carries no
`ce-specversion` header. -/
theorem default_spec_version_when_absent_witness :
    ∃ ce, ParseCloudEventHttpBinary testReq = Except.ok ce ∧
      ce.spec_version = kDefaultSpecVersion :=
  default_spec_version_when_absent.1 testReq "A234-1234-1234" "/mycontext"
    "com.example.someevent" (by decide) (by decide) (by decide)
    ⟨none, by decide⟩ ⟨none, by decide⟩ (by decide)

/-- Claim C9: in binary mode (on an otherwise-valid request), the
CloudEvent's data is set to the request body only when the body is
non-empty: an empty body yields data absent (not the empty string), and a
non-empty body yields data equal to exactly that body. -/
theorem binary_data_presence (r : BeastRequest) (i s t : String)
    (hid : lookupHeader r.headers "ce-id" = some i)
    (hsrc : lookupHeader r.headers "ce-source" = some s)
    (htyp : lookupHeader r.headers "ce-type" = some t)
    (htime : ∃ ot, parseTimeHeader (lookupHeader r.headers "ce-time") = Except.ok ot)
    (hct : ∃ od, reconcileContentType (lookupHeader r.headers "ce-datacontenttype")
        (lookupHeader r.headers "content-type") = Except.ok od) :
    ∃ ce, ParseCloudEventHttpBinary r = Except.ok ce ∧
      (r.body = "" → ce.data = none) ∧ (r.body ≠ "" → ce.data = some r.body) := by
  obtain ⟨ot, htime⟩ := htime
  obtain ⟨od, hct⟩ := hct
  refine ⟨_, binary_ok_shape r i s t ot od hid hsrc htyp htime hct, ?_, ?_⟩
  · intro hb
    simp [hb]
  · intro hb
    simp [hb]

/-- Witness for C9: the requests of tests `ParseCloudEventHttp.WithData`
(body `"Hello World\n"`) and `ParseCloudEventHttp.WithoutData` (no
body). -/
theorem binary_data_presence_witness :
    (∃ ce, ParseCloudEventHttpBinary dataReq = Except.ok ce ∧
      (dataReq.body = "" → ce.data = none) ∧
      (dataReq.body ≠ "" → ce.data = some dataReq.body)) ∧
    (∃ ce, ParseCloudEventHttpBinary testReq = Except.ok ce ∧
      (testReq.body = "" → ce.data = none) ∧
      (testReq.body ≠ "" → ce.data = some testReq.body)) :=
  ⟨binary_data_presence dataReq "A234-1234-1234" "/mycontext" "com.example.someevent"
    (by decide) (by decide) (by decide) ⟨none, by decide⟩ ⟨none, by decide⟩,
   binary_data_presence testReq "A234-1234-1234" "/mycontext" "com.example.someevent"
    (by decide) (by decide) (by decide) ⟨none, by decide⟩ ⟨none, by decide⟩⟩

/-- Claim C10 (implicit): for every binary-mode request (otherwise valid)
that carries a `ce-specversion` header, `ParseCloudEventHttpBinary`
returns a CloudEvent whose `spec_version` equals the header's value
verbatim; the value is not validated against any set of supported spec
versions (the universally quantified `v` covers unadvertised values such
as `"1.1"`). -/
theorem binary_spec_version_verbatim (r : BeastRequest) (i s t v : String)
    (hid : lookupHeader r.headers "ce-id" = some i)
    (hsrc : lookupHeader r.headers "ce-source" = some s)
    (htyp : lookupHeader r.headers "ce-type" = some t)
    (htime : ∃ ot, parseTimeHeader (lookupHeader r.headers "ce-time") = Except.ok ot)
    (hct : ∃ od, reconcileContentType (lookupHeader r.headers "ce-datacontenttype")
        (lookupHeader r.headers "content-type") = Except.ok od)
    (hsv : lookupHeader r.headers "ce-specversion" = some v) :
    ∃ ce, ParseCloudEventHttpBinary r = Except.ok ce ∧ ce.spec_version = v := by
  obtain ⟨ot, htime⟩ := htime
  obtain ⟨od, hct⟩ := hct
  refine ⟨_, binary_ok_shape r i s t ot od hid hsrc htyp htime hct, ?_⟩
  simp [hsv]

/-- Witness for C10: the request of test
`ParseCloudEventHttp.WithSpecVersion`, whose `ce-specversion` is the
unadvertised value `"1.1"`. -/
theorem binary_spec_version_verbatim_witness :
    ∃ ce, ParseCloudEventHttpBinary svReq = Except.ok ce ∧ ce.spec_version = "1.1" :=
  binary_spec_version_verbatim svReq "A234-1234-1234" "/mycontext"
    "com.example.someevent" "1.1" (by decide) (by decide) (by decide)
    ⟨none, by decide⟩ ⟨none, by decide⟩ (by decide)
